import Mathlib

/-!
Shallow embedding of the meteotrentino exporter refresh pipeline
(fetch → parse → per-series freshness validation → publish/evict → health),
translated from the Go source, together with theorems settling the
specification claims about it.

Modelling conventions:
* Go `time.Time` instants are integers counting seconds since the Unix
  epoch (`GoTime`); `t.After(u)` is the strict comparison `u < t`.
* Go `float64` sample values are never computed with — only copied from a
  parsed sample into a gauge — so they are represented by `Rat`.
* The Prometheus registry is an explicit `GaugeState`: for the single
  `LabelKey` the process owns, each of the three metric gauges is either
  absent (`none`, after `DeletePartialMatch`) or set (`some v`, after
  `With(labels).Set(v)`), plus the unlabeled `stations_up` value.
* The HTTP layer is an `HTTPResult` input (transport failure, or a
  response with status code and body); `xml.Unmarshal` is an abstract
  parameter `unmarshal : String → Except String DatiOggi` since it is Go
  standard library code, not code of this repository.
* `log.Println` effects that the claims talk about are collected in an
  explicit `List LogEvent` result.
-/

namespace Meteo

/-- Instants in seconds since the Unix epoch (`time.Time` in the source). -/
abbrev GoTime := Int

/-- Go `t.After(u)` on instants: strictly later. -/
def timeAfter (t u : GoTime) : Bool := u < t

/-- One `<temperatura_aria>` sample: timestamp, value, unit attribute. -/
structure TemperaturaAria where
  data : GoTime
  temperatura : Rat
  um : String
deriving DecidableEq

/-- The `<temperature>` section: an ordered list of samples. -/
structure Temperature where
  temperaturaAria : List TemperaturaAria
deriving DecidableEq

/-- One `<precipitazione>` sample: timestamp, value, unit attribute. -/
structure Precipitazione where
  data : GoTime
  pioggia : Rat
  um : String
deriving DecidableEq

/-- The `<precipitazioni>` section: an ordered list of samples. -/
structure Precipitazioni where
  precipitazione : List Precipitazione
deriving DecidableEq

/-- One `<umidita_relativa>` sample: timestamp and relative humidity. -/
structure UmiditaRelativa where
  data : GoTime
  rh : Rat
deriving DecidableEq

/-- The humidity section: an ordered list of samples. -/
structure UmiditaList where
  umidita : List UmiditaRelativa
deriving DecidableEq

/-- Snapshot `DatiOggi`: the station snapshot produced by one parse of one fetch. -/
structure DatiOggi where
  temperature : Temperature
  precipitazioni : Precipitazioni
  umidita : UmiditaList
deriving DecidableEq

/-- The command-line flags the pipeline reads (globals in the source). -/
structure Flags where
  codStazione : String
  locStazione : String
  listenAddr : String
  urlSchema : String
  toggleTemp : Bool
  toggleRain : Bool
  toggleHum : Bool
deriving DecidableEq

/-- The errors a per-series `refreshTemp`/`refreshRain`/`refreshHum` call
can produce.  `disabled` is the wrap `fmt.Errorf("%w: ...", errMetricDisabled)`,
`noSamples` the "No samples in ... series" error, `stale` the
"Rejected stale ... sample" error carrying the rejected timestamp. -/
inductive MetricError where
  | disabled (series : String)
  | noSamples (series : String)
  | stale (series : String) (timestamp : GoTime)
deriving DecidableEq

/-- Model of `errors.Is(err, errMetricDisabled)`: true exactly for the wrap of the
`errMetricDisabled` sentinel. -/
def isErrMetricDisabled : MetricError → Bool
  | MetricError.disabled _ => true
  | MetricError.noSamples _ => false
  | MetricError.stale _ _ => false

/-- Predicate for `logMetricError`: it prints the error unless it wraps `errMetricDisabled`;
this predicate says whether a log line is emitted. -/
def logMetricErrorEmits (e : MetricError) : Bool := !(isErrMetricDisabled e)

/-- Evaluation `refreshTemp(s, lastAcceptableTimestamp)`: disabled check, then empty
check, then staleness check on the last sample `s[len(s)-1]`, else accept
its `Temperatura` field.  The last-element access is guarded by the length
check, exactly as in the source (`n := len(s); if n < 1 { return err }`). -/
def refreshTemp (toggleTemp : Bool) (s : List TemperaturaAria)
    (lastAcceptableTimestamp : GoTime) : Except MetricError Rat :=
  if !toggleTemp then
    Except.error (MetricError.disabled "temperature")
  else if h : s.length < 1 then
    Except.error (MetricError.noSamples "temperature")
  else
    let last := s.get ⟨s.length - 1, by omega⟩
    if !(timeAfter last.data lastAcceptableTimestamp) then
      Except.error (MetricError.stale "temperature" last.data)
    else
      Except.ok last.temperatura

/-- Evaluation `refreshRain`, same shape as `refreshTemp` over the rain series. -/
def refreshRain (toggleRain : Bool) (s : List Precipitazione)
    (lastAcceptableTimestamp : GoTime) : Except MetricError Rat :=
  if !toggleRain then
    Except.error (MetricError.disabled "rain")
  else if h : s.length < 1 then
    Except.error (MetricError.noSamples "rain")
  else
    let last := s.get ⟨s.length - 1, by omega⟩
    if !(timeAfter last.data lastAcceptableTimestamp) then
      Except.error (MetricError.stale "rain" last.data)
    else
      Except.ok last.pioggia

/-- Evaluation `refreshHum`, same shape as `refreshTemp` over the humidity series. -/
def refreshHum (toggleHum : Bool) (s : List UmiditaRelativa)
    (lastAcceptableTimestamp : GoTime) : Except MetricError Rat :=
  if !toggleHum then
    Except.error (MetricError.disabled "humidity")
  else if h : s.length < 1 then
    Except.error (MetricError.noSamples "humidity")
  else
    let last := s.get ⟨s.length - 1, by omega⟩
    if !(timeAfter last.data lastAcceptableTimestamp) then
      Except.error (MetricError.stale "humidity" last.data)
    else
      Except.ok last.rh

/-- The outcome of `http.Get(url)` followed by `io.ReadAll(res.Body)`:
either the transport (or body read) failed, or a response arrived with a
status code and a body. -/
inductive HTTPResult where
  | transportError (msg : String)
  | response (statusCode : Nat) (body : String)
deriving DecidableEq

/-- The errors `getRealTimeData` can return: transport failure, the
`fmt.Errorf` for a status code above 299 (carrying status and body), or an
`xml.Unmarshal` failure. -/
inductive GetDataError where
  | transport (msg : String)
  | badStatus (statusCode : Nat) (body : String)
  | parseError (msg : String)
deriving DecidableEq

/-- The fetch stage of `getRealTimeData`: the raw body on success, an
error on transport failure or on `res.StatusCode > 299` (the latter
carrying both the status code and the body). -/
def fetchBody (r : HTTPResult) : Except GetDataError String :=
  match r with
  | HTTPResult.transportError m => Except.error (GetDataError.transport m)
  | HTTPResult.response statusCode body =>
    if statusCode > 299 then Except.error (GetDataError.badStatus statusCode body)
    else Except.ok body

/-- Fetch-and-parse `getRealTimeData()`: GET the url, reject status > 299, then
`xml.Unmarshal` the body into a `DatiOggi`.  `unmarshal` abstracts the Go
standard library XML decoder. -/
def getRealTimeData (unmarshal : String → Except String DatiOggi)
    (r : HTTPResult) : Except GetDataError DatiOggi :=
  match r with
  | HTTPResult.transportError m => Except.error (GetDataError.transport m)
  | HTTPResult.response statusCode body =>
    if statusCode > 299 then Except.error (GetDataError.badStatus statusCode body)
    else
      match unmarshal body with
      | Except.error m => Except.error (GetDataError.parseError m)
      | Except.ok item => Except.ok item

/-- The gauge registry state owned by the process's single `LabelKey`:
each metric gauge is absent (after `DeletePartialMatch`) or set, plus the
unlabeled `stations_up` value. -/
structure GaugeState where
  temp : Option Rat
  rain : Option Rat
  hum : Option Rat
  stationsUp : Rat
deriving DecidableEq

/-- The log lines the claims reason about: the `log.Println(err)` of a
failed fetch/parse, and the `logMetricError` output for a per-series
rejection. -/
inductive LogEvent where
  | cycleError (e : GetDataError)
  | metricError (e : MetricError)
deriving DecidableEq

/-- The log lines contributed by one per-series outcome: nothing on
success, and `logMetricError(err)` on failure (which stays silent exactly
for the `errMetricDisabled` wrap). -/
def metricLogs (res : Except MetricError Rat) : List LogEvent :=
  match res with
  | Except.ok _ => []
  | Except.error e => if logMetricErrorEmits e then [LogEvent.metricError e] else []

/-- One `refresh()` cycle.  On fetch/parse failure: log the error, delete
all three gauges, set `stations_up` to 0, return.  Otherwise evaluate the
three series independently against `now − 30min`; each gauge is set on
success and deleted on failure, `updated` becomes 1 if any kind
succeeded (it starts at 0 and each success sets it to 1), and
`stations_up` is set to `updated` at the end. -/
def refresh (unmarshal : String → Except String DatiOggi) (flags : Flags)
    (r : HTTPResult) (now : GoTime) (st : GaugeState) :
    GaugeState × List LogEvent :=
  let lastAcceptableTimestamp := now - 30 * 60
  match getRealTimeData unmarshal r with
  | Except.error e =>
      ({ st with temp := none, rain := none, hum := none, stationsUp := 0 },
        [LogEvent.cycleError e])
  | Except.ok o =>
      let temps := o.temperature.temperaturaAria
      let tempRes := refreshTemp flags.toggleTemp temps lastAcceptableTimestamp
      let precs := o.precipitazioni.precipitazione
      let rainRes := refreshRain flags.toggleRain precs lastAcceptableTimestamp
      let hums := o.umidita.umidita
      let humRes := refreshHum flags.toggleHum hums lastAcceptableTimestamp
      let updated : Rat :=
        if tempRes.isOk || rainRes.isOk || humRes.isOk then 1 else 0
      ({ temp := tempRes.toOption, rain := rainRes.toOption,
          hum := humRes.toOption, stationsUp := updated },
        metricLogs tempRes ++ metricLogs rainRes ++ metricLogs humRes)

/-- The url built by `main` from `urlFmt` via `fmt.Sprintf`. -/
def urlFor (schema codStazione : String) : String :=
  schema ++ "://dati.meteotrentino.it/service.asmx/ultimiDatiStazione?codice="
    ++ codStazione

/-- The observable actions of `main` after `flag.Parse()`: log lines, the
immediate `go refresh()`, arming the `time.NewTicker` loop, and binding
the exposition endpoint with `http.ListenAndServe`. -/
inductive MainStep where
  | logLine (msg : String)
  | startImmediateRefresh
  | armTicker
  | bindAndServe (addr : String)
deriving DecidableEq

/-- Control flow of `main()`: if no metric is enabled, log the closing
message and return; otherwise build the url, log it, start the refresh
goroutine and the ticker loop, and bind the metrics endpoint. -/
def mainSteps (flags : Flags) : List MainStep :=
  if !(flags.toggleTemp || flags.toggleRain || flags.toggleHum) then
    [MainStep.logLine "No metric enabled, closing"]
  else
    [MainStep.logLine ("Getting data from " ++ urlFor flags.urlSchema flags.codStazione),
      MainStep.startImmediateRefresh,
      MainStep.armTicker,
      MainStep.bindAndServe flags.listenAddr]

/-- A civil (wall-clock) date and time, the reading parsed from a sample's
`<data>` text before any zone interpretation. -/
structure CivilTime where
  year : Int
  month : Nat
  day : Nat
  hour : Nat
  minute : Nat
  second : Nat
deriving DecidableEq

/-- Numeric value of a decimal digit character. -/
def digitVal (c : Char) : Nat := c.toNat - Char.toNat '0'

/-- Gregorian leap-year rule. -/
def isLeapYear (y : Int) : Bool :=
  (y % 4 == 0 && y % 100 != 0) || y % 400 == 0

/-- Days in a month of a given year. -/
def daysInMonth (y : Int) (m : Nat) : Nat :=
  if m == 2 then (if isLeapYear y then 29 else 28)
  else if m == 4 || m == 6 || m == 9 || m == 11 then 30
  else 31

/-- Parse of the Go layout `2006-01-02T15:04:05`: exactly
`yyyy-mm-ddThh:mm:ss` with all components in range (this models the Go
standard library's layout matching and range validation; out-of-range
components are a parse error there too). -/
def parseDateTime (s : String) : Option CivilTime :=
  match s.data with
  | [y1, y2, y3, y4, q1, m1, m2, q2, d1, d2, q3, h1, h2, q4, n1, n2, q5, e1, e2] =>
    if q1 == '-' && q2 == '-' && q3 == 'T' && q4 == ':' && q5 == ':'
        && y1.isDigit && y2.isDigit && y3.isDigit && y4.isDigit
        && m1.isDigit && m2.isDigit && d1.isDigit && d2.isDigit
        && h1.isDigit && h2.isDigit && n1.isDigit && n2.isDigit
        && e1.isDigit && e2.isDigit then
      let year : Nat :=
        ((digitVal y1 * 10 + digitVal y2) * 10 + digitVal y3) * 10 + digitVal y4
      let month := digitVal m1 * 10 + digitVal m2
      let day := digitVal d1 * 10 + digitVal d2
      let hour := digitVal h1 * 10 + digitVal h2
      let minute := digitVal n1 * 10 + digitVal n2
      let second := digitVal e1 * 10 + digitVal e2
      if 1 ≤ month && month ≤ 12 && 1 ≤ day && day ≤ daysInMonth (year : Int) month
          && hour ≤ 23 && minute ≤ 59 && second ≤ 59 then
        some ⟨(year : Int), month, day, hour, minute, second⟩
      else none
    else none
  | _ => none

/-- Days from the Unix epoch to a civil date (standard civil-from-days
inverse; on the years a four-digit parse can produce, truncating and
flooring division agree, so this matches the Go calendar arithmetic). -/
def daysFromCivil (y : Int) (m d : Nat) : Int :=
  let yAdj : Int := if m ≤ 2 then y - 1 else y
  let era : Int := (if 0 ≤ yAdj then yAdj else yAdj - 399) / 400
  let yoe : Int := yAdj - era * 400
  let mp : Int := ((m : Int) + 9) % 12
  let doy : Int := (153 * mp + 2) / 5 + (d : Int) - 1
  let doe : Int := yoe * 365 + yoe / 4 - yoe / 100 + doy
  era * 146097 + doe - 719468

/-- The instant (seconds since epoch) at which a civil time occurs when
read as UTC. -/
def civilToEpochSeconds (c : CivilTime) : Int :=
  daysFromCivil c.year c.month c.day * 86400
    + (c.hour : Int) * 3600 + (c.minute : Int) * 60 + (c.second : Int)

/-- A `time.Location` as far as this program exercises it: a name and a
constant offset from UTC in seconds. -/
structure Location where
  name : String
  offsetSeconds : Int
deriving DecidableEq

/-- Model of `time.FixedZone(name, offset)`. -/
def FixedZone (name : String) (offsetSeconds : Int) : Location :=
  ⟨name, offsetSeconds⟩

/-- Model of `time.ParseInLocation("2006-01-02T15:04:05", s, loc)`: parse the civil
reading, then interpret it in `loc`, i.e. the instant is the civil reading
minus the location's offset. -/
def parseInLocation (s : String) (loc : Location) : Option GoTime :=
  (parseDateTime s).map (fun c => civilToEpochSeconds c - loc.offsetSeconds)

/-- Decoder `LocalTime.UnmarshalText`: parse the sample timestamp in
`time.FixedZone("UTC+1", 1*60*60)` — the source's comment: MeteoTrentino
always uses CET, even during DST. -/
def unmarshalLocalTime (s : String) : Option GoTime :=
  parseInLocation s (FixedZone "UTC+1" (1 * 60 * 60))

/-- Modelled from the spec (§4.2): "the station always reports local time
in a single fixed UTC offset (no daylight-saving adjustment) … it must
apply a constant offset" — decode the civil reading at the constant
offset +01:00, with no dependence of the offset on the date. -/
def specFixedOffsetDecode (s : String) : Option GoTime :=
  (parseDateTime s).map (fun c => civilToEpochSeconds c - 3600)

/-! Characterization lemmas used by several claim theorems. -/

/-- An enabled, non-empty temperature series is decided entirely by its
last sample. -/
theorem refreshTemp_concat (pre : List TemperaturaAria) (x : TemperaturaAria)
    (lat : GoTime) :
    refreshTemp true (pre ++ [x]) lat =
      if timeAfter x.data lat then Except.ok x.temperatura
      else Except.error (MetricError.stale "temperature" x.data) := by
  have hlen : ¬ (pre ++ [x]).length < 1 := by simp
  simp only [refreshTemp, Bool.not_true, Bool.false_eq_true, if_false, dif_neg hlen]
  simp
  cases timeAfter x.data lat <;> simp

/-- An enabled, non-empty rain series is decided entirely by its last
sample. -/
theorem refreshRain_concat (pre : List Precipitazione) (x : Precipitazione)
    (lat : GoTime) :
    refreshRain true (pre ++ [x]) lat =
      if timeAfter x.data lat then Except.ok x.pioggia
      else Except.error (MetricError.stale "rain" x.data) := by
  have hlen : ¬ (pre ++ [x]).length < 1 := by simp
  simp only [refreshRain, Bool.not_true, Bool.false_eq_true, if_false, dif_neg hlen]
  simp
  cases timeAfter x.data lat <;> simp

/-- An enabled, non-empty humidity series is decided entirely by its last
sample. -/
theorem refreshHum_concat (pre : List UmiditaRelativa) (x : UmiditaRelativa)
    (lat : GoTime) :
    refreshHum true (pre ++ [x]) lat =
      if timeAfter x.data lat then Except.ok x.rh
      else Except.error (MetricError.stale "humidity" x.data) := by
  have hlen : ¬ (pre ++ [x]).length < 1 := by simp
  simp only [refreshHum, Bool.not_true, Bool.false_eq_true, if_false, dif_neg hlen]
  simp
  cases timeAfter x.data lat <;> simp

/-- A cycle whose fetch/parse stage failed: all gauges deleted, health 0,
one logged error, nothing else. -/
theorem refresh_fetch_failed (u : String → Except String DatiOggi)
    (flags : Flags) (r : HTTPResult) (now : GoTime) (st : GaugeState)
    (e : GetDataError) (h : getRealTimeData u r = Except.error e) :
    refresh u flags r now st =
      ({ st with temp := none, rain := none, hum := none, stationsUp := 0 },
        [LogEvent.cycleError e]) := by
  simp only [refresh, h]

/-- A cycle whose fetch/parse stage succeeded, written in terms of the
three independent per-series results. -/
theorem refresh_fetch_ok (u : String → Except String DatiOggi)
    (flags : Flags) (r : HTTPResult) (now : GoTime) (st : GaugeState)
    (o : DatiOggi) (h : getRealTimeData u r = Except.ok o) :
    refresh u flags r now st =
      ({ temp := (refreshTemp flags.toggleTemp o.temperature.temperaturaAria
            (now - 30 * 60)).toOption,
          rain := (refreshRain flags.toggleRain o.precipitazioni.precipitazione
            (now - 30 * 60)).toOption,
          hum := (refreshHum flags.toggleHum o.umidita.umidita
            (now - 30 * 60)).toOption,
          stationsUp :=
            if (refreshTemp flags.toggleTemp o.temperature.temperaturaAria
                  (now - 30 * 60)).isOk
                || (refreshRain flags.toggleRain o.precipitazioni.precipitazione
                  (now - 30 * 60)).isOk
                || (refreshHum flags.toggleHum o.umidita.umidita
                  (now - 30 * 60)).isOk then 1 else 0 },
        metricLogs (refreshTemp flags.toggleTemp o.temperature.temperaturaAria
            (now - 30 * 60))
          ++ metricLogs (refreshRain flags.toggleRain o.precipitazioni.precipitazione
            (now - 30 * 60))
          ++ metricLogs (refreshHum flags.toggleHum o.umidita.umidita
            (now - 30 * 60))) := by
  simp only [refresh, h]

/-- Helper fact: `metricLogs` never emits a disabled-metric event. -/
theorem metricLogs_no_disabled (res : Except MetricError Rat) (k : String) :
    LogEvent.metricError (MetricError.disabled k) ∉ metricLogs res := by
  match res with
  | Except.ok _ => simp [metricLogs]
  | Except.error e =>
    cases e <;> simp [metricLogs, logMetricErrorEmits, isErrMetricDisabled]

/-- Helper fact: `metricLogs` emits exactly the events `logMetricError` prints. -/
theorem metricLogs_emits (e : MetricError) (he : logMetricErrorEmits e = true) :
    LogEvent.metricError e ∈ metricLogs (Except.error e) := by
  simp [metricLogs, he]


/-- No `refresh` cycle ever logs a disabled-metric event, on either the
failed-fetch path or the evaluation path. -/
theorem refresh_no_disabled_log (u : String → Except String DatiOggi)
    (flags : Flags) (r : HTTPResult) (now : GoTime) (st : GaugeState)
    (k : String) :
    LogEvent.metricError (MetricError.disabled k) ∉ (refresh u flags r now st).2 := by
  cases hg : getRealTimeData u r with
  | error e =>
    rw [refresh_fetch_failed u flags r now st e hg]
    simp
  | ok o =>
    rw [refresh_fetch_ok u flags r now st o hg]
    intro hmem
    rw [List.mem_append, List.mem_append] at hmem
    rcases hmem with (hmem | hmem) | hmem
    · exact metricLogs_no_disabled _ k hmem
    · exact metricLogs_no_disabled _ k hmem
    · exact metricLogs_no_disabled _ k hmem

/-- Claim C1: for every enabled metric kind, a series whose last sample is
strictly after `nowRef − 30min` is Accepted with exactly that last
sample's numeric value, whatever the earlier samples are. -/
theorem claim_C1_accepts_fresh_last
    (pre1 : List TemperaturaAria) (x1 : TemperaturaAria)
    (pre2 : List Precipitazione) (x2 : Precipitazione)
    (pre3 : List UmiditaRelativa) (x3 : UmiditaRelativa)
    (now : GoTime)
    (h1 : timeAfter x1.data (now - 30 * 60) = true)
    (h2 : timeAfter x2.data (now - 30 * 60) = true)
    (h3 : timeAfter x3.data (now - 30 * 60) = true) :
    refreshTemp true (pre1 ++ [x1]) (now - 30 * 60) = Except.ok x1.temperatura ∧
    refreshRain true (pre2 ++ [x2]) (now - 30 * 60) = Except.ok x2.pioggia ∧
    refreshHum true (pre3 ++ [x3]) (now - 30 * 60) = Except.ok x3.rh := by
  rw [refreshTemp_concat, refreshRain_concat, refreshHum_concat, h1, h2, h3]
  exact ⟨rfl, rfl, rfl⟩

/-- Witness for C1 at a concrete input: an old junk sample followed by a
fresh last sample. -/
theorem claim_C1_accepts_fresh_last_witness :
    timeAfter ((3600 : GoTime)) ((3600 : GoTime) - 30 * 60) = true ∧
    (refreshTemp true ([⟨-999, 5, "°C"⟩] ++ [⟨3600, 12, "°C"⟩])
        ((3600 : GoTime) - 30 * 60) = Except.ok 12 ∧
      refreshRain true ([⟨-999, 7, "mm"⟩] ++ [⟨3600, 3, "mm"⟩])
        ((3600 : GoTime) - 30 * 60) = Except.ok 3 ∧
      refreshHum true ([⟨-999, 50⟩] ++ [⟨3600, 80⟩])
        ((3600 : GoTime) - 30 * 60) = Except.ok 80) :=
  ⟨by decide,
    claim_C1_accepts_fresh_last [⟨-999, 5, "°C"⟩] ⟨3600, 12, "°C"⟩
      [⟨-999, 7, "mm"⟩] ⟨3600, 3, "mm"⟩ [⟨-999, 50⟩] ⟨3600, 80⟩ 3600
      (by decide) (by decide) (by decide)⟩

/-- Claim C3: a failed fetch or parse aborts the cycle: all three gauges
are deleted, health is set to 0, the error is logged, and nothing else
happens — in particular no per-series evaluation and no partial publish. -/
theorem claim_C3_fetch_parse_abort (u : String → Except String DatiOggi)
    (flags : Flags) (r : HTTPResult) (now : GoTime) (st : GaugeState)
    (e : GetDataError) (h : getRealTimeData u r = Except.error e) :
    refresh u flags r now st =
      ({ st with temp := none, rain := none, hum := none, stationsUp := 0 },
        [LogEvent.cycleError e]) :=
  refresh_fetch_failed u flags r now st e h

/-- Witness for C3 at a concrete input: a parse failure on an HTTP 200
response, starting from a state with gauges set. -/
theorem claim_C3_fetch_parse_abort_witness :
    getRealTimeData (fun _ => Except.error "malformed")
        (HTTPResult.response 200 "junk") = Except.error (GetDataError.parseError "malformed") ∧
    refresh (fun _ => Except.error "malformed")
        (Flags.mk "T0147" "Rovereto" ":8089" "https" true true true)
        (HTTPResult.response 200 "junk") 100000 (GaugeState.mk (some 12) (some 3) (some 80) 1) =
      ({ GaugeState.mk (some 12) (some 3) (some 80) 1 with
          temp := none, rain := none, hum := none, stationsUp := 0 },
        [LogEvent.cycleError (GetDataError.parseError "malformed")]) :=
  ⟨rfl,
    claim_C3_fetch_parse_abort (fun _ => Except.error "malformed")
      (Flags.mk "T0147" "Rovereto" ":8089" "https" true true true)
      (HTTPResult.response 200 "junk") 100000
      (GaugeState.mk (some 12) (some 3) (some 80) 1)
      (GetDataError.parseError "malformed") rfl⟩

/-- Claim C5: an enabled, empty series is Rejected(Empty); the embedding's
last-element access carries a proof obligation `length − 1 < length` that
only arises after the `n < 1` guard fails, so the empty case returns
before any element access. -/
theorem claim_C5_empty_series (lat : GoTime) :
    refreshTemp true [] lat = Except.error (MetricError.noSamples "temperature") ∧
    refreshRain true [] lat = Except.error (MetricError.noSamples "rain") ∧
    refreshHum true [] lat = Except.error (MetricError.noSamples "humidity") :=
  ⟨rfl, rfl, rfl⟩

/-- Claim C10: with all three toggles disabled, `main` only logs the
closing message: no immediate refresh (hence no fetch), no ticker, no
endpoint binding. -/
theorem claim_C10_all_disabled_exits (flags : Flags)
    (h1 : flags.toggleTemp = false) (h2 : flags.toggleRain = false)
    (h3 : flags.toggleHum = false) :
    mainSteps flags = [MainStep.logLine "No metric enabled, closing"] ∧
    MainStep.startImmediateRefresh ∉ mainSteps flags ∧
    MainStep.armTicker ∉ mainSteps flags ∧
    ∀ a, MainStep.bindAndServe a ∉ mainSteps flags := by
  have hm : mainSteps flags = [MainStep.logLine "No metric enabled, closing"] := by
    simp [mainSteps, h1, h2, h3]
  refine ⟨hm, ?_, ?_, ?_⟩ <;> simp [hm]

/-- Witness for C10 at a concrete all-disabled configuration. -/
theorem claim_C10_all_disabled_exits_witness :
    mainSteps (Flags.mk "T0147" "Rovereto" ":8089" "https" false false false) =
        [MainStep.logLine "No metric enabled, closing"] ∧
    MainStep.armTicker ∉
      mainSteps (Flags.mk "T0147" "Rovereto" ":8089" "https" false false false) :=
  ⟨(claim_C10_all_disabled_exits _ rfl rfl rfl).1,
    (claim_C10_all_disabled_exits
      (Flags.mk "T0147" "Rovereto" ":8089" "https" false false false)
      rfl rfl rfl).2.2.1⟩

/-- Claim C2: for an enabled, non-empty series, the evaluation is
Rejected(Stale) iff the last sample is not strictly after `nowRef − 30min`
(so a last sample exactly at `nowRef − 30min` is rejected), and on a
fetch-ok cycle a stale series gets its gauge deleted. -/
theorem claim_C2_stale_iff_and_evict
    (u : String → Except String DatiOggi) (flags : Flags) (r : HTTPResult)
    (now : GoTime) (st : GaugeState) (o : DatiOggi)
    (pre1 : List TemperaturaAria) (x1 : TemperaturaAria)
    (pre2 : List Precipitazione) (x2 : Precipitazione)
    (pre3 : List UmiditaRelativa) (x3 : UmiditaRelativa)
    (ho : getRealTimeData u r = Except.ok o) :
    (refreshTemp true (pre1 ++ [x1]) (now - 30 * 60)
        = Except.error (MetricError.stale "temperature" x1.data)
      ↔ timeAfter x1.data (now - 30 * 60) = false) ∧
    (refreshRain true (pre2 ++ [x2]) (now - 30 * 60)
        = Except.error (MetricError.stale "rain" x2.data)
      ↔ timeAfter x2.data (now - 30 * 60) = false) ∧
    (refreshHum true (pre3 ++ [x3]) (now - 30 * 60)
        = Except.error (MetricError.stale "humidity" x3.data)
      ↔ timeAfter x3.data (now - 30 * 60) = false) ∧
    refreshTemp true (pre1 ++ [x1]) x1.data
      = Except.error (MetricError.stale "temperature" x1.data) ∧
    refreshRain true (pre2 ++ [x2]) x2.data
      = Except.error (MetricError.stale "rain" x2.data) ∧
    refreshHum true (pre3 ++ [x3]) x3.data
      = Except.error (MetricError.stale "humidity" x3.data) ∧
    (flags.toggleTemp = true → o.temperature.temperaturaAria = pre1 ++ [x1] →
      timeAfter x1.data (now - 30 * 60) = false →
      (refresh u flags r now st).1.temp = none) ∧
    (flags.toggleRain = true → o.precipitazioni.precipitazione = pre2 ++ [x2] →
      timeAfter x2.data (now - 30 * 60) = false →
      (refresh u flags r now st).1.rain = none) ∧
    (flags.toggleHum = true → o.umidita.umidita = pre3 ++ [x3] →
      timeAfter x3.data (now - 30 * 60) = false →
      (refresh u flags r now st).1.hum = none) := by
  refine ⟨?_, ?_, ?_, ?_, ?_, ?_, ?_, ?_, ?_⟩
  · rw [refreshTemp_concat]
    cases h : timeAfter x1.data (now - 30 * 60) <;> simp [h]
  · rw [refreshRain_concat]
    cases h : timeAfter x2.data (now - 30 * 60) <;> simp [h]
  · rw [refreshHum_concat]
    cases h : timeAfter x3.data (now - 30 * 60) <;> simp [h]
  · rw [refreshTemp_concat]
    simp [timeAfter]
  · rw [refreshRain_concat]
    simp [timeAfter]
  · rw [refreshHum_concat]
    simp [timeAfter]
  · intro ht hs hstale
    rw [refresh_fetch_ok u flags r now st o ho]
    simp only [ht, hs, refreshTemp_concat, hstale]
    simp [Except.toOption]
  · intro ht hs hstale
    rw [refresh_fetch_ok u flags r now st o ho]
    simp only [ht, hs, refreshRain_concat, hstale]
    simp [Except.toOption]
  · intro ht hs hstale
    rw [refresh_fetch_ok u flags r now st o ho]
    simp only [ht, hs, refreshHum_concat, hstale]
    simp [Except.toOption]

/-- Claim C4: health is always 0 or 1, and it is 1 exactly when the fetch
and parse succeeded and at least one of the three kinds was Accepted this
cycle. -/
theorem claim_C4_health (u : String → Except String DatiOggi) (flags : Flags)
    (r : HTTPResult) (now : GoTime) (st : GaugeState) :
    ((refresh u flags r now st).1.stationsUp = 0 ∨
      (refresh u flags r now st).1.stationsUp = 1) ∧
    ((refresh u flags r now st).1.stationsUp = 1 ↔
      ∃ o, getRealTimeData u r = Except.ok o ∧
        ((refreshTemp flags.toggleTemp o.temperature.temperaturaAria
            (now - 30 * 60)).isOk = true
          ∨ (refreshRain flags.toggleRain o.precipitazioni.precipitazione
            (now - 30 * 60)).isOk = true
          ∨ (refreshHum flags.toggleHum o.umidita.umidita
            (now - 30 * 60)).isOk = true)) := by
  cases hg : getRealTimeData u r with
  | error e =>
    rw [refresh_fetch_failed u flags r now st e hg]
    constructor
    · exact Or.inl rfl
    · simp [hg]
  | ok o =>
    rw [refresh_fetch_ok u flags r now st o hg]
    cases hc : ((refreshTemp flags.toggleTemp o.temperature.temperaturaAria
          (now - 30 * 60)).isOk
        || (refreshRain flags.toggleRain o.precipitazioni.precipitazione
          (now - 30 * 60)).isOk
        || (refreshHum flags.toggleHum o.umidita.umidita
          (now - 30 * 60)).isOk) with
    | false =>
      rw [Bool.or_eq_false_iff, Bool.or_eq_false_iff] at hc
      obtain ⟨⟨hcT, hcR⟩, hcH⟩ := hc
      norm_num at hcT hcR hcH
      constructor
      · exact Or.inl (by simp [hcT, hcR, hcH])
      · simp [hcT, hcR, hcH]
    | true =>
      rw [Bool.or_eq_true, Bool.or_eq_true] at hc
      constructor
      · exact Or.inr (by simp)
      · simp only [if_pos rfl]
        constructor
        · intro _
          refine ⟨o, rfl, ?_⟩
          tauto
        · intro _
          rfl

/-- Claim C6: a disabled toggle short-circuits the evaluation to
Rejected(Disabled) whatever the series holds; only the disabled outcome is
unlogged (Empty and Stale are logged); and on a fetch-ok cycle the
disabled kind's gauge is deleted while no disabled event ever reaches the
log. -/
theorem claim_C6_disabled_silent
    (s1 : List TemperaturaAria) (s2 : List Precipitazione)
    (s3 : List UmiditaRelativa) (lat : GoTime)
    (u : String → Except String DatiOggi) (flags : Flags) (r : HTTPResult)
    (now : GoTime) (st : GaugeState) (o : DatiOggi)
    (ho : getRealTimeData u r = Except.ok o)
    (ht : flags.toggleTemp = false) :
    refreshTemp false s1 lat = Except.error (MetricError.disabled "temperature") ∧
    refreshRain false s2 lat = Except.error (MetricError.disabled "rain") ∧
    refreshHum false s3 lat = Except.error (MetricError.disabled "humidity") ∧
    (∀ k, logMetricErrorEmits (MetricError.disabled k) = false) ∧
    (∀ k, logMetricErrorEmits (MetricError.noSamples k) = true) ∧
    (∀ k t, logMetricErrorEmits (MetricError.stale k t) = true) ∧
    (refresh u flags r now st).1.temp = none ∧
    ∀ k, LogEvent.metricError (MetricError.disabled k) ∉ (refresh u flags r now st).2 := by
  refine ⟨rfl, rfl, rfl, fun k => rfl, fun k => rfl, fun k t => rfl, ?_, ?_⟩
  · rw [refresh_fetch_ok u flags r now st o ho]
    simp [ht, refreshTemp, Except.toOption]
  · intro k
    exact refresh_no_disabled_log u flags r now st k

/-- Claim C9: on a fetch-ok cycle each kind's published gauge is exactly
the image of its own per-series evaluation — a function of that kind's
series, toggle and `now` only — and two cycles agreeing on one kind's
series and toggle publish the same gauge for that kind whatever the other
kinds do. -/
theorem claim_C9_kinds_independent
    (u : String → Except String DatiOggi) (flags : Flags) (r : HTTPResult)
    (now : GoTime) (st : GaugeState) (o : DatiOggi)
    (ho : getRealTimeData u r = Except.ok o) :
    (refresh u flags r now st).1.temp
        = (refreshTemp flags.toggleTemp o.temperature.temperaturaAria
            (now - 30 * 60)).toOption ∧
    (refresh u flags r now st).1.rain
        = (refreshRain flags.toggleRain o.precipitazioni.precipitazione
            (now - 30 * 60)).toOption ∧
    (refresh u flags r now st).1.hum
        = (refreshHum flags.toggleHum o.umidita.umidita
            (now - 30 * 60)).toOption ∧
    (∀ u2 flags2 r2 st2 o2, getRealTimeData u2 r2 = Except.ok o2 →
      flags2.toggleRain = flags.toggleRain →
      o2.precipitazioni = o.precipitazioni →
      (refresh u2 flags2 r2 now st2).1.rain = (refresh u flags r now st).1.rain) := by
  rw [refresh_fetch_ok u flags r now st o ho]
  refine ⟨rfl, rfl, rfl, ?_⟩
  intro u2 flags2 r2 st2 o2 ho2 htog hser
  rw [refresh_fetch_ok u2 flags2 r2 now st2 o2 ho2]
  simp only [htog, hser]

/-- Witness for C2 at a concrete input: a sample 10s after the epoch
evaluated at now = 100000s is stale; its gauge, previously set, comes out
deleted, and the exact-boundary sample is rejected. -/
theorem claim_C2_stale_iff_and_evict_witness :
    timeAfter (10 : GoTime) ((100000 : GoTime) - 30 * 60) = false ∧
    refreshTemp true ([] ++ [(⟨10, 5, "°C"⟩ : TemperaturaAria)]) (10 : GoTime)
      = Except.error (MetricError.stale "temperature" 10) ∧
    (refresh
        (fun _ => Except.ok (DatiOggi.mk (Temperature.mk [⟨10, 5, "°C"⟩])
          (Precipitazioni.mk []) (UmiditaList.mk [])))
        (Flags.mk "T0147" "Rovereto" ":8089" "https" true true true)
        (HTTPResult.response 200 "ok") 100000
        (GaugeState.mk (some 1) none none 1)).1.temp = none := by
  have T := claim_C2_stale_iff_and_evict
    (fun _ => Except.ok (DatiOggi.mk (Temperature.mk [⟨10, 5, "°C"⟩])
      (Precipitazioni.mk []) (UmiditaList.mk [])))
    (Flags.mk "T0147" "Rovereto" ":8089" "https" true true true)
    (HTTPResult.response 200 "ok") 100000
    (GaugeState.mk (some 1) none none 1)
    (DatiOggi.mk (Temperature.mk [⟨10, 5, "°C"⟩])
      (Precipitazioni.mk []) (UmiditaList.mk []))
    [] ⟨10, 5, "°C"⟩ [] ⟨0, 0, "mm"⟩ [] ⟨0, 0⟩ rfl
  exact ⟨by decide, T.2.2.2.1,
    T.2.2.2.2.2.2.1 rfl rfl (by decide)⟩

/-- Witness for C6 at a concrete input: temperature disabled with a fresh
non-empty series still yields Rejected(Disabled), the gauge is deleted,
and no disabled event is logged. -/
theorem claim_C6_disabled_silent_witness :
    refreshTemp false [⟨99999, 21, "°C"⟩] (0 : GoTime)
      = Except.error (MetricError.disabled "temperature") ∧
    (refresh
        (fun _ => Except.ok (DatiOggi.mk (Temperature.mk [⟨99999, 21, "°C"⟩])
          (Precipitazioni.mk []) (UmiditaList.mk [])))
        (Flags.mk "T0147" "Rovereto" ":8089" "https" false true true)
        (HTTPResult.response 200 "ok") 100000
        (GaugeState.mk (some 1) none none 1)).1.temp = none ∧
    LogEvent.metricError (MetricError.disabled "temperature") ∉
      (refresh
        (fun _ => Except.ok (DatiOggi.mk (Temperature.mk [⟨99999, 21, "°C"⟩])
          (Precipitazioni.mk []) (UmiditaList.mk [])))
        (Flags.mk "T0147" "Rovereto" ":8089" "https" false true true)
        (HTTPResult.response 200 "ok") 100000
        (GaugeState.mk (some 1) none none 1)).2 := by
  have T := claim_C6_disabled_silent
    [⟨99999, 21, "°C"⟩] [] [] (0 : GoTime)
    (fun _ => Except.ok (DatiOggi.mk (Temperature.mk [⟨99999, 21, "°C"⟩])
      (Precipitazioni.mk []) (UmiditaList.mk [])))
    (Flags.mk "T0147" "Rovereto" ":8089" "https" false true true)
    (HTTPResult.response 200 "ok") 100000
    (GaugeState.mk (some 1) none none 1)
    (DatiOggi.mk (Temperature.mk [⟨99999, 21, "°C"⟩])
      (Precipitazioni.mk []) (UmiditaList.mk []))
    rfl rfl
  exact ⟨T.1, T.2.2.2.2.2.2.1, T.2.2.2.2.2.2.2 "temperature"⟩

/-- Witness for C9 at concrete inputs: two cycles sharing the rain series
and toggle but with different temperature series publish the same rain
gauge. -/
theorem claim_C9_kinds_independent_witness :
    (refresh
        (fun _ => Except.ok (DatiOggi.mk (Temperature.mk [])
          (Precipitazioni.mk [⟨99999, 3, "mm"⟩]) (UmiditaList.mk [])))
        (Flags.mk "T0147" "Rovereto" ":8089" "https" false true true)
        (HTTPResult.response 200 "first") 100000
        (GaugeState.mk none none none 0)).1.rain =
      (refresh
        (fun _ => Except.ok (DatiOggi.mk (Temperature.mk [⟨99999, 21, "°C"⟩])
          (Precipitazioni.mk [⟨99999, 3, "mm"⟩]) (UmiditaList.mk [])))
        (Flags.mk "T0147" "Rovereto" ":8089" "https" true true true)
        (HTTPResult.response 200 "second") 100000
        (GaugeState.mk (some 1) (some 2) (some 3) 1)).1.rain := by
  have T := claim_C9_kinds_independent
    (fun _ => Except.ok (DatiOggi.mk (Temperature.mk [⟨99999, 21, "°C"⟩])
      (Precipitazioni.mk [⟨99999, 3, "mm"⟩]) (UmiditaList.mk [])))
    (Flags.mk "T0147" "Rovereto" ":8089" "https" true true true)
    (HTTPResult.response 200 "second") 100000
    (GaugeState.mk (some 1) (some 2) (some 3) 1)
    (DatiOggi.mk (Temperature.mk [⟨99999, 21, "°C"⟩])
      (Precipitazioni.mk [⟨99999, 3, "mm"⟩]) (UmiditaList.mk []))
    rfl
  exact T.2.2.2
    (fun _ => Except.ok (DatiOggi.mk (Temperature.mk [])
      (Precipitazioni.mk [⟨99999, 3, "mm"⟩]) (UmiditaList.mk [])))
    (Flags.mk "T0147" "Rovereto" ":8089" "https" false true true)
    (HTTPResult.response 200 "first")
    (GaugeState.mk none none none 0)
    (DatiOggi.mk (Temperature.mk [])
      (Precipitazioni.mk [⟨99999, 3, "mm"⟩]) (UmiditaList.mk []))
    rfl rfl rfl

/-- Claim C7: the sample timestamp decoder agrees with the spec's
constant-offset rule everywhere: the parsed instant is the civil reading
minus the fixed +01:00 offset, for every input, with no dependence of the
offset on the date (so no daylight-saving adjustment ever applies). -/
theorem claim_C7_fixed_offset (s : String) :
    unmarshalLocalTime s = specFixedOffsetDecode s ∧
    (∀ c, parseDateTime s = some c →
      unmarshalLocalTime s = some (civilToEpochSeconds c - 3600)) ∧
    (parseDateTime s = none → unmarshalLocalTime s = none) := by
  refine ⟨rfl, ?_, ?_⟩
  · intro c hc
    simp [unmarshalLocalTime, parseInLocation, FixedZone, hc]
  · intro hn
    simp [unmarshalLocalTime, parseInLocation, FixedZone, hn]

/-- Witness for C7 at a concrete summer timestamp (a date inside the
daylight-saving period still gets the constant +01:00 offset). -/
theorem claim_C7_fixed_offset_witness :
    parseDateTime "2024-07-15T12:30:00" = some (CivilTime.mk 2024 7 15 12 30 0) ∧
    unmarshalLocalTime "2024-07-15T12:30:00"
      = some (civilToEpochSeconds (CivilTime.mk 2024 7 15 12 30 0) - 3600) :=
  ⟨by decide,
    (claim_C7_fixed_offset "2024-07-15T12:30:00").2.1
      (CivilTime.mk 2024 7 15 12 30 0) (by decide)⟩

/-- Claim C8: the fetch stage yields the raw body exactly on a transport
success with status ≤ 299, errors exactly on transport failure or status
above 299 (that error carrying the status code and the body), and
`getRealTimeData` hands the raw body to the XML decoder on success and
propagates the fetch error otherwise. -/
theorem claim_C8_fetch_contract (r : HTTPResult) :
    (∀ b, fetchBody r = Except.ok b ↔
      ∃ statusCode, r = HTTPResult.response statusCode b ∧ statusCode ≤ 299) ∧
    ((∃ e, fetchBody r = Except.error e) ↔
      (∃ m, r = HTTPResult.transportError m) ∨
      ∃ statusCode b, r = HTTPResult.response statusCode b ∧ 299 < statusCode) ∧
    (∀ statusCode b, r = HTTPResult.response statusCode b → 299 < statusCode →
      fetchBody r = Except.error (GetDataError.badStatus statusCode b)) ∧
    (∀ m, r = HTTPResult.transportError m →
      fetchBody r = Except.error (GetDataError.transport m)) ∧
    (∀ u b, fetchBody r = Except.ok b →
      getRealTimeData u r =
        match u b with
        | Except.error m => Except.error (GetDataError.parseError m)
        | Except.ok item => Except.ok item) ∧
    (∀ u e, fetchBody r = Except.error e → getRealTimeData u r = Except.error e) := by
  cases r with
  | transportError m =>
    refine ⟨?_, ?_, ?_, ?_, ?_, ?_⟩
    · intro b
      simp [fetchBody]
    · simp [fetchBody]
    · intro sc b h
      cases h
    · intro m2 h
      cases h
      rfl
    · intro u b h
      simp [fetchBody] at h
    · intro u e h
      simp only [fetchBody] at h
      cases h
      rfl
  | response statusCode body =>
    by_cases hst : statusCode > 299
    · refine ⟨?_, ?_, ?_, ?_, ?_, ?_⟩
      · intro b
        simp only [fetchBody, if_pos hst]
        constructor
        · intro h
          cases h
        · rintro ⟨sc, hr, hsc⟩
          injection hr with h1 h2
          omega
      · simp only [fetchBody, if_pos hst]
        constructor
        · intro _
          exact Or.inr ⟨statusCode, body, rfl, hst⟩
        · intro _
          exact ⟨GetDataError.badStatus statusCode body, rfl⟩
      · intro sc b h h2
        injection h with h1 hb
        subst h1
        subst hb
        simp only [fetchBody, if_pos hst]
      · intro m h
        cases h
      · intro u b h
        simp only [fetchBody, if_pos hst] at h
        cases h
      · intro u e h
        simp only [fetchBody, if_pos hst] at h
        cases h
        simp only [getRealTimeData, if_pos hst]
    · refine ⟨?_, ?_, ?_, ?_, ?_, ?_⟩
      · intro b
        simp only [fetchBody, if_neg hst]
        constructor
        · intro h
          cases h
          exact ⟨statusCode, rfl, by omega⟩
        · rintro ⟨sc, hr, hsc⟩
          injection hr with h1 h2
          subst h2
          rfl
      · simp only [fetchBody, if_neg hst]
        constructor
        · rintro ⟨e, he⟩
          cases he
        · rintro (⟨m, hm⟩ | ⟨sc, b, hr, hsc⟩)
          · cases hm
          · injection hr with h1 h2
            omega
      · intro sc b h h2
        injection h with h1 h2
        omega
      · intro m h
        cases h
      · intro u b h
        simp only [fetchBody, if_neg hst] at h
        cases h
        simp only [getRealTimeData, if_neg hst]
      · intro u e h
        simp only [fetchBody, if_neg hst] at h
        cases h

/-- Witness for C8 at a concrete input: an HTTP 500 response errors with
the status code and body in the error. -/
theorem claim_C8_fetch_contract_witness :
    fetchBody (HTTPResult.response 500 "oops")
      = Except.error (GetDataError.badStatus 500 "oops") :=
  (claim_C8_fetch_contract (HTTPResult.response 500 "oops")).2.2.1
    500 "oops" rfl (by decide)

end Meteo
